import Mathlib

/-!
Verification of `src/core/termninja/server.py` (the termninja connection
lifecycle and matchmaking engine) against its natural-language specification.

The Python source is shallowly embedded: each coroutine is translated to a
pure Lean function over explicit inputs (queue contents, hook results, the
persistence lookup, fault points), producing the trace of observable effects
(messages sent, queue pushes, transport closes, task spawns) that the source
would perform.
-/

namespace Termninja

/-- Number of occurrences of `e` in a list (effect-trace counting helper). -/
def countOcc {α : Type} [DecidableEq α] (e : α) : List α → Nat
  | [] => 0
  | x :: xs => (if x = e then 1 else 0) + countOcc e xs

/-! ## Matchmaker (`Server._start_game_task`, lines 198-205)

`_start_game_task` loops forever; on each iteration it awaits
`self._player_queue.get()` exactly `self.player_count` times (in order, via
the list comprehension, which completes before `create_task` is called) and
hands the resulting batch to `_launch_game`.  Its steady-state effect on an
arrival sequence `q` is: repeatedly split off the first `player_count`
elements as a batch while at least `player_count` elements are available. -/

/-- The batches formed by `_start_game_task` from arrival sequence `q` with
batch size `pc` (= `player_count`). -/
def batches {α : Type} (pc : Nat) (q : List α) : List (List α) :=
  if _h : 0 < pc ∧ pc ≤ q.length then q.take pc :: batches pc (q.drop pc) else []
termination_by q.length
decreasing_by simp only [List.length_drop]; omega

/-- The sessions still sitting in `_player_queue` once no further full batch
can be formed from arrival sequence `q`. -/
def remainingQueue {α : Type} (pc : Nat) (q : List α) : List α :=
  if _h : 0 < pc ∧ pc ≤ q.length then remainingQueue pc (q.drop pc) else q
termination_by q.length
decreasing_by simp only [List.length_drop]; omega

/-! ## Acceptor pipeline (`Server._on_connection` / `Server._accept_player`,
lines 174-196)

The pipeline of a session is embedded as the trace of observable effects it
produces.  The accepted/rejected hooks are parameters (arbitrary traces), so
the theorems quantify over every hook-module composition. -/

/-- Observable effects of the pipeline of one connection. -/
inductive Ev
  | connectedHookDone
  | acceptedHookDone
  | rejectedHookDone
  | enqueue
  | close
deriving DecidableEq, Repr

/-- `Server._accept_player` (lines 186-196): ask the should-accept hook; on
`true` run the effects `acceptedHookEv` of the accepted hook then put the
player on `_player_queue`; on `false` run the effects `rejectedHookEv` of the
rejected hook, then close the transport of the player. -/
def accept_player (shouldAccept : Bool) (acceptedHookEv rejectedHookEv : List Ev) : List Ev :=
  if shouldAccept then acceptedHookEv ++ [Ev.enqueue]
  else rejectedHookEv ++ [Ev.close]

/-- `Server.should_accept_player` (lines 80-84): the base hook accepts every
player. -/
def should_accept_player (_player : Nat) : Bool :=
  true

/-- Where, if anywhere, a `ConnectionResetError` is raised by the peer during
the awaits of the pipeline. -/
inductive Fault
  | noFault
  | duringConnectedHook
  | duringShouldAcceptHook
  | duringAcceptedHook
  | duringRejectedHook
deriving DecidableEq, Repr

/-- `Server._accept_player` under fault injection: returns the effects
performed and whether a `ConnectionResetError` propagated out.  A fault at a
hook makes that hook raise before performing its effects. -/
def accept_player_fault (decision : Bool) (fault : Fault) : List Ev × Bool :=
  if fault = Fault.duringShouldAcceptHook then ([], true)
  else if decision then
    if fault = Fault.duringAcceptedHook then ([], true)
    else ([Ev.acceptedHookDone, Ev.enqueue], false)
  else
    if fault = Fault.duringRejectedHook then ([], true)
    else ([Ev.rejectedHookDone, Ev.close], false)

/-- Whether a fault point is actually reached by a pipeline run with the
given should-accept decision (a fault at the accepted hook can only fire when
that hook runs, and likewise for the rejected hook). -/
def fault_fires (decision : Bool) : Fault → Bool
  | Fault.noFault => false
  | Fault.duringConnectedHook => true
  | Fault.duringShouldAcceptHook => true
  | Fault.duringAcceptedHook => decision
  | Fault.duringRejectedHook => !decision

/-- `Server._on_connection` (lines 174-184): run the connected hook then
`_accept_player` inside `try`; a `ConnectionResetError` is caught and answered
by `player.close()`.  Returns the trace and whether any exception escapes to
the serving loop. -/
def on_connection (decision : Bool) (fault : Fault) : List Ev × Bool :=
  let body : List Ev × Bool :=
    if fault = Fault.duringConnectedHook then ([], true)
    else
      let r := accept_player_fault decision fault
      (Ev.connectedHookDone :: r.1, r.2)
  if body.2 then (body.1 ++ [Ev.close], false) else body

/-! ## Lifecycle (`Server._start_serving`, lines 100-127, and
`Server._teardown`, lines 155-159) -/

/-- Exceptions relevant to the `try` block of `_start_serving`. -/
inductive Exc
  | cancelled
  | error
deriving DecidableEq, Repr

/-- Lifecycle effects. -/
inductive LEv
  | taskSpawn
  | startedHook
  | teardown
deriving DecidableEq, Repr

/-- The `try ... except asyncio.CancelledError: pass ... finally: await
self._teardown()` shape of `_start_serving` (lines 112-127): `body` is the
trace and outcome of the `try` block (which may have been interrupted at any
point, so its trace is arbitrary); `fin` is the `finally` trace. -/
def tryCancelledFinally (body : List LEv × Option Exc) (fin : List LEv) :
    List LEv × Option Exc :=
  match body.2 with
  | some Exc.cancelled => (body.1 ++ fin, none)
  | r => (body.1 ++ fin, r)

/-- `Server._start_serving` around an arbitrary body outcome; the `finally`
clause runs `_teardown`, whose sole effect is the persistence disconnect. -/
def start_serving (body : List LEv × Option Exc) : List LEv × Option Exc :=
  tryCancelledFinally body [LEv.teardown]

/-! ## Stop signals (`Server._register_signal_handlers` /
`Server._handle_stop_signal`, lines 129-146) -/

/-- The two signals registered by `_register_signal_handlers`. -/
inductive Sig
  | sigint
  | sigterm
deriving DecidableEq, Repr

/-- `Server._handle_stop_signal` (lines 140-146): cancel every outstanding
task.  Tasks are embedded as their cancelled flags; `task.cancel()` sets the
flag. -/
def handle_stop_signal (_s : Sig) (tasks : List Bool) : List Bool :=
  tasks.map (fun _ => true)

/-! ## Optional authentication (`OptionalAuthenticationMixin`, lines 217-262)

`db.users.select_by_play_token` is the external persistence lookup, embedded
as a function parameter; `datetime.datetime.now()` as the parameter `now`.
Timestamps are integers ordered like datetimes. -/

/-- The messages `should_accept_player` can send. -/
inductive AuthMsg
  | prompt
  | accepted
  | rejected
  | expired
deriving DecidableEq, Repr

/-- A persistence user record, reduced to the field the hook reads. -/
structure UserRec where
  play_token_expires_at : Int
deriving DecidableEq, Repr

/-- `OptionalAuthenticationMixin.token_is_expired` (lines 232-233). -/
def token_is_expired (expiration_datetime now : Int) : Bool :=
  expiration_datetime < now

/-- Result of one run of the auth hook: messages sent (after the prompt),
the identity attached via `player.assign_db_user` (if any), the boolean
decision, and whether the persistence service was queried. -/
structure AuthResult where
  msgs : List AuthMsg
  assignedUser : Option UserRec
  decision : Bool
  dbQueried : Bool
deriving DecidableEq, Repr

/-- `OptionalAuthenticationMixin.should_accept_player` (lines 235-253). -/
def auth_should_accept_player (selectByPlayToken : String → Option UserRec)
    (now : Int) (token : String) : AuthResult :=
  if token = "" then
    ⟨[AuthMsg.prompt], none, true, false⟩
  else
    match selectByPlayToken token with
    | none => ⟨[AuthMsg.prompt, AuthMsg.rejected], none, false, true⟩
    | some user =>
      if token_is_expired user.play_token_expires_at now then
        ⟨[AuthMsg.prompt, AuthMsg.expired], none, false, true⟩
      else
        ⟨[AuthMsg.prompt, AuthMsg.accepted], some user, true, true⟩

/-- A concrete persistence state used to exercise the auth hook: one token
on file, expiring at time 0. -/
def authDbExample : String → Option UserRec :=
  fun t => if t = "tok" then some ⟨0⟩ else none

/-! ## Registration heartbeat (`PingDatabaseMixin`, lines 265-285) -/

/-- `PingDatabaseMixin.ping_database_interval = 2 * 60` (line 266). -/
def ping_database_interval : Nat := 2 * 60

/-- Persistence effects of `_update_database_task`. -/
inductive PingEv
  | upsert (slug : String)
  | ping (slug : String)
  | sleepFor (secs : Nat)
deriving DecidableEq, Repr

/-- The `while True: ping; sleep` loop of `_update_database_task`
(lines 280-282), truncated to its first `iters` iterations. -/
def ping_loop (slug : String) : Nat → List PingEv
  | 0 => []
  | n + 1 => PingEv.ping slug :: PingEv.sleepFor ping_database_interval :: ping_loop slug n

/-- `PingDatabaseMixin._update_database_task` (lines 272-282): slugify the
server name, upsert the registration record once, then loop.  `slugify` is
the external slug function, a parameter. -/
def update_database_task (slugify : String → String) (server_name : String)
    (iters : Nat) : List PingEv :=
  PingEv.upsert (slugify server_name) :: ping_loop (slugify server_name) iters

/-- Effects of `PingDatabaseMixin.on_server_started` itself. -/
inductive StartEv
  | spawnUpdateTask
  | nextStartedHook
deriving DecidableEq, Repr

/-- `PingDatabaseMixin.on_server_started` (lines 268-270): spawn
`_update_database_task` as its own task (not awaited), then await the next
hook of the next module. -/
def ping_on_server_started : List StartEv :=
  [StartEv.spawnUpdateTask, StartEv.nextStartedHook]

/-! ## Display name and `_launch_game` (lines 62-66 and 207-214)

`_launch_game` constructs the controller with
`server_friendly_name=self.get_friendly_name()`.  Python resolves that
attribute against the composed class; the embedding therefore carries the
table of attribute names the source defines on `Server`,
`OptionalAuthenticationMixin`, `PingDatabaseMixin` and `TermninjaServer`. -/

/-- `Server.get_server_name` (lines 62-66):
`getattr` of the attribute `friendly_name` with the class name as default. -/
def get_server_name (friendly_name : Option String) (class_name : String) : String :=
  friendly_name.getD class_name

/-- Every attribute name defined in the bodies of `Server`,
`OptionalAuthenticationMixin`, `PingDatabaseMixin` and `TermninjaServer` in
`server.py` (methods and class attributes). -/
def class_attribute_names : List String :=
  ["HOST", "welcome_message", "continuation_message", "controller_class",
   "player_count", "description", "start", "get_controller_class",
   "get_server_name", "on_server_started", "on_player_connected",
   "should_accept_player", "on_player_accepted", "on_player_rejected",
   "_start_serving", "_register_signal_handlers", "_handle_stop_signal",
   "_initialize", "_teardown", "_server_task", "_on_connection",
   "_accept_player", "_start_game_task", "_launch_game",
   "enter_token_prompt", "erase_input", "token_accepted_message",
   "token_rejected_message", "token_expired_message", "token_is_expired",
   "ping_database_interval", "_update_database_task", "ping_database"]

/-- Whether the composed server class defines attribute `n`. -/
def class_defines (n : String) : Bool :=
  class_attribute_names.contains n

/-- Result of evaluating a Python expression that performs an attribute
lookup. -/
inductive PyResult (α : Type)
  | ok (val : α)
  | attributeError (attr : String)
deriving DecidableEq, Repr

/-- The controller-constructor call made by `_launch_game`. -/
structure ControllerCtor where
  players : List Nat
  server_friendly_name : String
deriving DecidableEq, Repr

/-- `Server._launch_game` (lines 207-214): build the controller call
`controller_class(*players, server_friendly_name=self.get_friendly_name())`.
The attribute `get_friendly_name` is looked up on the composed class; if it
resolved, the intended display name would be the value of `get_server_name`. -/
def launch_game (friendly_name : Option String) (class_name : String)
    (players : List Nat) : PyResult ControllerCtor :=
  if class_defines "get_friendly_name" then
    PyResult.ok ⟨players, get_server_name friendly_name class_name⟩
  else
    PyResult.attributeError "get_friendly_name"

/-! ## Theorems -/

theorem batches_pos {α : Type} (pc : Nat) (q : List α) (h : 0 < pc ∧ pc ≤ q.length) :
    batches pc q = q.take pc :: batches pc (q.drop pc) := by
  rw [batches]
  exact dif_pos h

theorem batches_neg {α : Type} (pc : Nat) (q : List α) (h : ¬(0 < pc ∧ pc ≤ q.length)) :
    batches pc q = [] := by
  rw [batches]
  exact dif_neg h

theorem remainingQueue_pos {α : Type} (pc : Nat) (q : List α) (h : 0 < pc ∧ pc ≤ q.length) :
    remainingQueue pc q = remainingQueue pc (q.drop pc) := by
  rw [remainingQueue]
  exact dif_pos h

theorem remainingQueue_neg {α : Type} (pc : Nat) (q : List α) (h : ¬(0 < pc ∧ pc ≤ q.length)) :
    remainingQueue pc q = q := by
  rw [remainingQueue]
  exact dif_neg h

theorem batches_length {α : Type} (pc : Nat) (hpc : 0 < pc) (q : List α) :
    (batches pc q).length = q.length / pc := by
  by_cases h : pc ≤ q.length
  · have ih := batches_length pc hpc (q.drop pc)
    rw [batches_pos pc q ⟨hpc, h⟩, List.length_cons, ih, List.length_drop,
      Nat.div_eq_sub_div hpc h]
  · rw [batches_neg pc q (by omega), List.length_nil, Nat.div_eq_of_lt (by omega)]
termination_by q.length
decreasing_by simp only [List.length_drop]; omega

theorem batches_all_length {α : Type} (pc : Nat) (q : List α) :
    ∀ b ∈ batches pc q, b.length = pc := by
  by_cases h : 0 < pc ∧ pc ≤ q.length
  · intro b hb
    rw [batches_pos pc q h] at hb
    rcases List.mem_cons.mp hb with rfl | hb'
    · rw [List.length_take]
      omega
    · exact batches_all_length pc (q.drop pc) b hb'
  · intro b hb
    rw [batches_neg pc q h] at hb
    exact absurd hb (List.not_mem_nil b)
termination_by q.length
decreasing_by simp only [List.length_drop]; omega

theorem batches_join {α : Type} (pc : Nat) (q : List α) :
    (batches pc q).flatten ++ remainingQueue pc q = q := by
  by_cases h : 0 < pc ∧ pc ≤ q.length
  · have ih := batches_join pc (q.drop pc)
    rw [batches_pos pc q h, remainingQueue_pos pc q h, List.flatten_cons,
      List.append_assoc, ih, List.take_append_drop]
  · rw [batches_neg pc q h, remainingQueue_neg pc q h, List.flatten_nil, List.nil_append]
termination_by q.length
decreasing_by simp only [List.length_drop]; omega

theorem remainingQueue_length {α : Type} (pc : Nat) (hpc : 0 < pc) (q : List α) :
    (remainingQueue pc q).length = q.length % pc := by
  by_cases h : pc ≤ q.length
  · have ih := remainingQueue_length pc hpc (q.drop pc)
    rw [remainingQueue_pos pc q ⟨hpc, h⟩, ih, List.length_drop,
      Nat.mod_eq_sub_mod h]
  · rw [remainingQueue_neg pc q (by omega), Nat.mod_eq_of_lt (by omega)]
termination_by q.length
decreasing_by simp only [List.length_drop]; omega

/-- C1: for every arrival sequence of accepted sessions, the Matchmaker forms
exactly `⌊N / player_count⌋` batches, each of exactly `player_count` sessions;
the concatenation of the batches followed by the sessions still queued is the
arrival sequence itself (so batches are taken in dequeue order, no session is
in two batches and none is skipped), and exactly `N % player_count` sessions
beyond the last full batch remain queued. -/
theorem matchmaker_batching {α : Type} (pc : Nat) (hpc : 0 < pc) (arrivals : List α) :
    (batches pc arrivals).length = arrivals.length / pc ∧
    (∀ b ∈ batches pc arrivals, b.length = pc) ∧
    (batches pc arrivals).flatten ++ remainingQueue pc arrivals = arrivals ∧
    (remainingQueue pc arrivals).length = arrivals.length % pc :=
  ⟨batches_length pc hpc arrivals, batches_all_length pc arrivals,
    batches_join pc arrivals, remainingQueue_length pc hpc arrivals⟩

/-- C1 witness: the worked example of the spec, `player_count = 2` with three accepted
connections: exactly one batch is formed and one session remains queued. -/
theorem matchmaker_batching_witness :
    0 < 2 ∧
    ((batches 2 [1, 2, 3]).length = ([1, 2, 3] : List Nat).length / 2 ∧
      (∀ b ∈ batches 2 [1, 2, 3], b.length = 2) ∧
      (batches 2 [1, 2, 3]).flatten ++ remainingQueue 2 [1, 2, 3] = [1, 2, 3] ∧
      (remainingQueue 2 [1, 2, 3]).length = ([1, 2, 3] : List Nat).length % 2) :=
  ⟨by decide, matchmaker_batching 2 (by decide) [1, 2, 3]⟩

theorem countOcc_append {α : Type} [DecidableEq α] (e : α) (l m : List α) :
    countOcc e (l ++ m) = countOcc e l + countOcc e m := by
  induction l with
  | nil => simp [countOcc]
  | cons x xs ih => simp [countOcc, ih, Nat.add_assoc]

/-- C2: if the should-accept hook returns true, the accepted hook runs to
completion and then the session is enqueued exactly once; if it returns false,
the rejected hook runs and then the Acceptor closes the transport exactly
once, and the session is never enqueued.  The hypotheses are the documented
hook contract (hooks do not themselves enqueue or close). -/
theorem accept_player_exactly_once (acceptedHookEv rejectedHookEv : List Ev)
    (h1 : countOcc Ev.enqueue acceptedHookEv = 0)
    (h2 : countOcc Ev.close rejectedHookEv = 0)
    (h3 : countOcc Ev.enqueue rejectedHookEv = 0) :
    accept_player true acceptedHookEv rejectedHookEv = acceptedHookEv ++ [Ev.enqueue] ∧
    countOcc Ev.enqueue (accept_player true acceptedHookEv rejectedHookEv) = 1 ∧
    accept_player false acceptedHookEv rejectedHookEv = rejectedHookEv ++ [Ev.close] ∧
    countOcc Ev.close (accept_player false acceptedHookEv rejectedHookEv) = 1 ∧
    countOcc Ev.enqueue (accept_player false acceptedHookEv rejectedHookEv) = 0 := by
  refine ⟨rfl, ?_, rfl, ?_, ?_⟩ <;>
    simp [accept_player, countOcc_append, countOcc, h1, h2, h3]

/-- C2 witness: the base hooks (send continuation then readline; rejected hook
does nothing) at a concrete session. -/
theorem accept_player_exactly_once_witness :
    (countOcc Ev.enqueue [Ev.acceptedHookDone] = 0 ∧
      countOcc Ev.close [Ev.rejectedHookDone] = 0 ∧
      countOcc Ev.enqueue [Ev.rejectedHookDone] = 0) ∧
    (accept_player true [Ev.acceptedHookDone] [Ev.rejectedHookDone] =
        [Ev.acceptedHookDone] ++ [Ev.enqueue] ∧
      countOcc Ev.enqueue (accept_player true [Ev.acceptedHookDone] [Ev.rejectedHookDone]) = 1 ∧
      accept_player false [Ev.acceptedHookDone] [Ev.rejectedHookDone] =
        [Ev.rejectedHookDone] ++ [Ev.close] ∧
      countOcc Ev.close (accept_player false [Ev.acceptedHookDone] [Ev.rejectedHookDone]) = 1 ∧
      countOcc Ev.enqueue (accept_player false [Ev.acceptedHookDone] [Ev.rejectedHookDone]) = 0) :=
  ⟨⟨by decide, by decide, by decide⟩,
    accept_player_exactly_once [Ev.acceptedHookDone] [Ev.rejectedHookDone]
      (by decide) (by decide) (by decide)⟩

/-- C10: the base should-accept hook returns true for every player, so with
the base behavior every session that survives the connected hook runs the
accepted hook and is enqueued; the rejected branch (and its close) is never
taken. -/
theorem base_server_accepts_every_player :
    ∀ (p : Nat) (acceptedHookEv rejectedHookEv : List Ev),
      should_accept_player p = true ∧
      accept_player (should_accept_player p) acceptedHookEv rejectedHookEv =
        acceptedHookEv ++ [Ev.enqueue] ∧
      countOcc Ev.close (accept_player (should_accept_player p) acceptedHookEv rejectedHookEv) =
        countOcc Ev.close acceptedHookEv ∧
      countOcc Ev.rejectedHookDone
          (accept_player (should_accept_player p) acceptedHookEv rejectedHookEv) =
        countOcc Ev.rejectedHookDone acceptedHookEv := by
  intro p ah rh
  refine ⟨rfl, rfl, ?_, ?_⟩ <;>
    simp [should_accept_player, accept_player, countOcc_append, countOcc]

/-- C6: wherever a peer-disconnect (`ConnectionResetError`) fault fires during
the pipeline, the handler in `_on_connection` closes the session and no
exception escapes to the serving loop; in particular the Acceptor keeps
accepting. -/
theorem on_connection_isolates_peer_errors :
    ∀ (decision : Bool) (fault : Fault),
      (on_connection decision fault).2 = false ∧
      (fault_fires decision fault = true →
        countOcc Ev.close (on_connection decision fault).1 = 1) := by
  intro d f
  cases d <;> cases f <;>
    simp [on_connection, accept_player_fault, fault_fires, countOcc]

/-- C6 witness: a peer reset during the rejected hook still yields exactly one
close and no escaping exception. -/
theorem on_connection_isolates_peer_errors_witness :
    (on_connection false Fault.duringRejectedHook).2 = false ∧
    countOcc Ev.close (on_connection false Fault.duringRejectedHook).1 = 1 :=
  ⟨(on_connection_isolates_peer_errors false Fault.duringRejectedHook).1,
    (on_connection_isolates_peer_errors false Fault.duringRejectedHook).2 rfl⟩

/-- C4: whatever the `try` body of `_start_serving` did before finishing,
being cancelled, or failing, the `finally` clause runs the persistence
disconnect exactly once, cancellation is absorbed (`except CancelledError:
pass`) and never surfaces, and a genuine task failure still surfaces after
teardown. -/
theorem start_serving_cancellation_and_teardown (body : List LEv × Option Exc)
    (hbody : countOcc LEv.teardown body.1 = 0) :
    countOcc LEv.teardown (start_serving body).1 = 1 ∧
    (body.2 = some Exc.cancelled → (start_serving body).2 = none) ∧
    (start_serving body).2 ≠ some Exc.cancelled ∧
    (body.2 = some Exc.error → (start_serving body).2 = some Exc.error) := by
  obtain ⟨tr, exc⟩ := body
  rcases exc with _ | e
  · simp_all [start_serving, tryCancelledFinally, countOcc_append, countOcc]
  · cases e <;>
      simp_all [start_serving, tryCancelledFinally, countOcc_append, countOcc]

/-- C4 witness: a body cancelled right after spawning the two core tasks and
firing the started hook. -/
theorem start_serving_cancellation_and_teardown_witness :
    countOcc LEv.teardown ([LEv.taskSpawn, LEv.taskSpawn, LEv.startedHook] : List LEv) = 0 ∧
    (countOcc LEv.teardown
        (start_serving ([LEv.taskSpawn, LEv.taskSpawn, LEv.startedHook], some Exc.cancelled)).1 = 1 ∧
      ((([LEv.taskSpawn, LEv.taskSpawn, LEv.startedHook] : List LEv), some Exc.cancelled).2 =
          some Exc.cancelled →
        (start_serving ([LEv.taskSpawn, LEv.taskSpawn, LEv.startedHook], some Exc.cancelled)).2 =
          none) ∧
      (start_serving ([LEv.taskSpawn, LEv.taskSpawn, LEv.startedHook], some Exc.cancelled)).2 ≠
        some Exc.cancelled ∧
      ((([LEv.taskSpawn, LEv.taskSpawn, LEv.startedHook] : List LEv), some Exc.cancelled).2 =
          some Exc.error →
        (start_serving ([LEv.taskSpawn, LEv.taskSpawn, LEv.startedHook], some Exc.cancelled)).2 =
          some Exc.error)) :=
  ⟨by decide,
    start_serving_cancellation_and_teardown
      ([LEv.taskSpawn, LEv.taskSpawn, LEv.startedHook], some Exc.cancelled) (by decide)⟩

theorem map_const_true (l : List Bool) :
    l.map (fun _ => true) = List.replicate l.length true := by
  induction l with
  | nil => rfl
  | cons x xs ih => simp [List.replicate_succ, ih]

/-- C7: both registered stop signals perform the same transition, that
transition cancels every outstanding task, and a second signal while already
shutting down changes nothing (idempotent). -/
theorem stop_signal_cancels_all_and_idempotent :
    ∀ (s s' : Sig) (tasks : List Bool),
      handle_stop_signal s tasks = List.replicate tasks.length true ∧
      handle_stop_signal s (handle_stop_signal s' tasks) = handle_stop_signal s' tasks ∧
      handle_stop_signal s tasks = handle_stop_signal s' tasks := by
  intro s s' tasks
  refine ⟨map_const_true tasks, ?_, rfl⟩
  simp [handle_stop_signal, map_const_true]

theorem ping_loop_counts (slug : String) (n : Nat) :
    countOcc (PingEv.ping slug) (ping_loop slug n) = n ∧
    countOcc (PingEv.sleepFor ping_database_interval) (ping_loop slug n) = n ∧
    (∀ s, countOcc (PingEv.upsert s) (ping_loop slug n) = 0) := by
  induction n with
  | zero => simp [ping_loop, countOcc]
  | succ k ih => simp [ping_loop, countOcc, ih, Nat.add_comm]

/-- C8: the heartbeat started hook spawns its update task and then calls the
next started hook, each exactly once, without entering the loop itself; the
spawned task upserts the registration record for the slug of the display name
exactly once and then pings it once per fixed 120-second interval. -/
theorem heartbeat_started_behavior :
    ∀ (slugify : String → String) (server_name : String) (iters : Nat),
      (update_database_task slugify server_name iters).head? =
        some (PingEv.upsert (slugify server_name)) ∧
      countOcc (PingEv.upsert (slugify server_name))
        (update_database_task slugify server_name iters) = 1 ∧
      countOcc (PingEv.ping (slugify server_name))
        (update_database_task slugify server_name iters) = iters ∧
      countOcc (PingEv.sleepFor ping_database_interval)
        (update_database_task slugify server_name iters) = iters ∧
      ping_database_interval = 120 ∧
      ping_on_server_started = [StartEv.spawnUpdateTask, StartEv.nextStartedHook] ∧
      countOcc StartEv.spawnUpdateTask ping_on_server_started = 1 ∧
      countOcc StartEv.nextStartedHook ping_on_server_started = 1 := by
  intro slugify server_name iters
  obtain ⟨hp, hs, hu⟩ := ping_loop_counts (slugify server_name) iters
  refine ⟨rfl, ?_, ?_, ?_, rfl, rfl, by decide, by decide⟩ <;>
    simp [update_database_task, countOcc, hp, hs, hu]

/-- C5: the auth hook accepts empty input anonymously; rejects an unknown
token with the rejected message; rejects a known but expired token with the
expired message and attaches no identity; and accepts a known unexpired
token with the accepted message, attaching the identity. -/
theorem optional_auth_decision (selectByPlayToken : String → Option UserRec)
    (now : Int) (token : String) :
    (token = "" →
      auth_should_accept_player selectByPlayToken now token =
        ⟨[AuthMsg.prompt], none, true, false⟩) ∧
    (token ≠ "" → selectByPlayToken token = none →
      auth_should_accept_player selectByPlayToken now token =
        ⟨[AuthMsg.prompt, AuthMsg.rejected], none, false, true⟩) ∧
    (∀ u, token ≠ "" → selectByPlayToken token = some u →
      u.play_token_expires_at < now →
      auth_should_accept_player selectByPlayToken now token =
        ⟨[AuthMsg.prompt, AuthMsg.expired], none, false, true⟩) ∧
    (∀ u, token ≠ "" → selectByPlayToken token = some u →
      ¬u.play_token_expires_at < now →
      auth_should_accept_player selectByPlayToken now token =
        ⟨[AuthMsg.prompt, AuthMsg.accepted], some u, true, true⟩) := by
  refine ⟨?_, ?_, ?_, ?_⟩
  · intro h
    simp [auth_should_accept_player, h]
  · intro h hdb
    simp [auth_should_accept_player, h, hdb]
  · intro u h hdb hexp
    simp [auth_should_accept_player, h, hdb, token_is_expired, hexp]
  · intro u h hdb hexp
    simp [auth_should_accept_player, h, hdb, token_is_expired, hexp]

/-- C5 witness: a token present in persistence but past its expiry is
rejected with the expired message and no identity is attached. -/
theorem optional_auth_decision_witness :
    ("tok" ≠ "" ∧ authDbExample "tok" = some ⟨0⟩ ∧ (0 : Int) < 5) ∧
    auth_should_accept_player authDbExample 5 "tok" =
      ⟨[AuthMsg.prompt, AuthMsg.expired], none, false, true⟩ :=
  ⟨⟨by decide, by decide, by decide⟩,
    (optional_auth_decision authDbExample 5 "tok").2.2.1 ⟨0⟩
      (by decide) (by decide) (by decide)⟩

/-- C9: with empty token input the auth hook accepts without querying the
persistence service, and its outcome is identical under any two persistence
states and clock values. -/
theorem anonymous_accept_is_db_independent :
    ∀ (db1 db2 : String → Option UserRec) (now1 now2 : Int),
      auth_should_accept_player db1 now1 "" = auth_should_accept_player db2 now2 "" ∧
      (auth_should_accept_player db1 now1 "").dbQueried = false ∧
      (auth_should_accept_player db1 now1 "").decision = true := by
  intro db1 db2 now1 now2
  exact ⟨rfl, rfl, rfl⟩

/-- C3: the code of `_launch_game` looks up `get_friendly_name` on the
composed server class, but no class in `server.py` defines that attribute
(the defined display-name method is `get_server_name`), so launching any full
batch raises `AttributeError` instead of resolving the display name; the
claimed resolution (`friendly_name` attribute, else the class name) is the
behavior of `get_server_name`. -/
theorem launch_game_missing_attribute :
    class_defines "get_friendly_name" = false ∧
    class_defines "get_server_name" = true ∧
    launch_game none "TermninjaServer" [0, 1] =
      PyResult.attributeError "get_friendly_name" ∧
    launch_game (some "Snake") "TermninjaServer" [0, 1] =
      PyResult.attributeError "get_friendly_name" ∧
    get_server_name (some "Snake") "TermninjaServer" = "Snake" ∧
    get_server_name none "TermninjaServer" = "TermninjaServer" := by
  refine ⟨by decide, by decide, by decide, by decide, rfl, rfl⟩

end Termninja
